import Mathlib

/-!
Shallow embedding of the join-and-aggregate core of the NYC flood 311
analysis pipeline (src/scripts/data_processing.py), together with models of
the sample-data constructor (create_sample_311_data), the complaint branch
of download_and_prepare_data, and the orchestration in
src/scripts/run_analysis.py.

Conventions: geographic coordinates are exact rationals (the source works
with floating-point degrees; none of the verified properties depends on
rounding of finite values).  The float result of the rate computation
`(count / population) * 1000` is modelled with an explicit value type that
keeps the IEEE-754 special values produced by division by zero (0/0 = NaN,
c/0 = +inf for c > 0) and the exact rational value otherwise.
-/

namespace FloodSpec

/-- A geographic point, as built by `gpd.points_from_xy(Longitude, Latitude)`
(src/scripts/data_processing.py line 273). -/
structure Pt where
  lon : ℚ
  lat : ℚ
deriving DecidableEq

/-- A 311 complaint record (an Event).  Only the unique key and the location
participate in the join/aggregate step; the remaining columns are carried
through unchanged and do not affect any verified property. -/
structure Event where
  id : ℕ
  loc : Pt
deriving DecidableEq

/-- A census tract (a Region): GEOID, population and boundary ring.  The ring
is the vertex list of the polygon, with the first vertex repeated at the end,
exactly as built in create_sample_census_data (lines 175-181). -/
structure Region where
  geoid : String
  population : ℕ
  boundary : List Pt
deriving DecidableEq

/-- One edge (a, b) of a polygon ring crosses the horizontal ray going right
from p.  This is the classical even-odd ray-casting test; together with
`crossingCount` it models the `within` predicate that gpd.sjoin (line 278)
delegates to the geometry library, for points not on the boundary of a
simple polygon. -/
def edgeCrosses (p a b : Pt) : Bool :=
  (decide (a.lat > p.lat) != decide (b.lat > p.lat)) &&
    decide (p.lon < (b.lon - a.lon) * (p.lat - a.lat) / (b.lat - a.lat) + a.lon)

/-- Number of ring edges crossed by the rightward ray from p. -/
def crossingCount (p : Pt) : List Pt → ℕ
  | a :: b :: rest => (if edgeCrosses p a b then 1 else 0) + crossingCount p (b :: rest)
  | _ => 0

/-- Point-in-polygon containment (model of the `within` join predicate). -/
def within (p : Pt) (ring : List Pt) : Bool :=
  crossingCount p ring % 2 == 1

/-- The regions whose boundary contains the given event's point. -/
def regionsContaining (e : Event) (regions : List Region) : List Region :=
  regions.filter (fun r => within e.loc r.boundary)

/-- The output rows of `gpd.sjoin(complaints_gdf, census_gdf, how="left",
predicate="within")` (line 278) contributed by one complaint row: one row per
matching census region, or a single row with a null GEOID when no region
matches. -/
def sjoinRowsFor (e : Event) (regions : List Region) : List (Event × Option Region) :=
  match regionsContaining e regions with
  | [] => [(e, none)]
  | ms => ms.map (fun r => (e, some r))

/-- All rows of the left spatial join, complaints in input order. -/
def sjoinRows : List Event → List Region → List (Event × Option Region)
  | [], _ => []
  | e :: es, regions => sjoinRowsFor e regions ++ sjoinRows es regions

/-- spatial_join_with_census (lines 257-291): the sjoin rows after
`dropna(subset=['GEOID'])` (line 285), i.e. only the matched rows. -/
def spatial_join_with_census (events : List Event) (regions : List Region) :
    List (Event × Region) :=
  (sjoinRows events regions).filterMap (fun er => er.2.map (fun r => (er.1, r)))

/-- The complaints the function reports as unable to be matched to a census
tract (lines 281-282): sjoin rows whose GEOID is null. -/
def unmatchedCount (events : List Event) (regions : List Region) : ℕ :=
  ((sjoinRows events regions).filter (fun er => er.2.isNone)).length

/-- The float64 value of the complaint_rate column entry.  Division by zero
in the source (line 316) follows IEEE-754 float semantics: 0/0 is NaN and
c/0 is +inf for c > 0; for a positive population we keep the exact rational
value of (count / population) * 1000. -/
inductive Rate where
  | nan : Rate
  | inf : Rate
  | val (q : ℚ) : Rate
deriving DecidableEq

/-- The complaint_rate computed on line 316 for one region row. -/
def computeRate (count population : ℕ) : Rate :=
  if population = 0 then
    (if count = 0 then Rate.nan else Rate.inf)
  else
    Rate.val ((count : ℚ) / (population : ℚ) * 1000)

/-- One row of the aggregated output: the census region with its
complaint_count and complaint_rate columns. -/
structure AggregatedRegion where
  region : Region
  complaint_count : ℕ
  complaint_rate : Rate
deriving DecidableEq

/-- The complaint count `joined_df.groupby('GEOID').size()` assigns to a
GEOID (line 307): the number of joined rows carrying that GEOID. -/
def geoidCount (joined : List (Event × Region)) (g : String) : ℕ :=
  (joined.filter (fun er => er.2.geoid == g)).length

/-- aggregate_by_census_tract (lines 293-322): the left merge of the census
table with the per-GEOID counts keeps every census row in order (the groupby
output has one row per GEOID, so no row is duplicated), `fillna(0)` turns a
missing count into 0, and line 316 adds the rate column. -/
def aggregate_by_census_tract (joined : List (Event × Region)) (census : List Region) :
    List AggregatedRegion :=
  census.map (fun r =>
    { region := r
      complaint_count := geoidCount joined r.geoid
      complaint_rate := computeRate (geoidCount joined r.geoid) r.population })

/-- The join-and-aggregate step of the pipeline (lines 332-335): the same
census table is passed to both functions. -/
def joinAggregate (events : List Event) (regions : List Region) : List AggregatedRegion :=
  aggregate_by_census_tract (spatial_join_with_census events regions) regions

/-- Sum of the complaint_count column of an aggregated output. -/
def totalComplaintCount (out : List AggregatedRegion) : ℕ :=
  (out.map (fun ar => ar.complaint_count)).sum

/-- The unit square region of the spec's concrete scenario: population 2000,
boundary [0,1] x [0,1]. -/
def scenarioRegion : Region :=
  { geoid := "R", population := 2000,
    boundary := [⟨0, 0⟩, ⟨1, 0⟩, ⟨1, 1⟩, ⟨0, 1⟩, ⟨0, 0⟩] }

/-- The three events of the spec's concrete scenario: (0.2, 0.2), (0.5, 0.5)
and (2.0, 2.0). -/
def scenarioEvents : List Event :=
  [⟨1, ⟨1/5, 1/5⟩⟩, ⟨2, ⟨1/2, 1/2⟩⟩, ⟨3, ⟨2, 2⟩⟩]

/-! ## Structural lemmas about the join -/

theorem spatial_join_nil (regions : List Region) :
    spatial_join_with_census [] regions = [] := rfl

theorem sjoinRows_cons (e : Event) (es : List Event) (regions : List Region) :
    sjoinRows (e :: es) regions = sjoinRowsFor e regions ++ sjoinRows es regions := rfl

theorem filterMap_some_pair (e : Event) (l : List Region) :
    List.filterMap (fun x => some (e, x)) l = l.map (fun r => (e, r)) := by
  induction l with
  | nil => rfl
  | cons a t ih => simp [List.filterMap_cons, ih]

theorem spatial_join_cons (e : Event) (es : List Event) (regions : List Region) :
    spatial_join_with_census (e :: es) regions =
      (regionsContaining e regions).map (fun r => (e, r)) ++
        spatial_join_with_census es regions := by
  unfold spatial_join_with_census
  rw [sjoinRows_cons, List.filterMap_append]
  congr 1
  unfold sjoinRowsFor
  cases h : regionsContaining e regions with
  | nil => simp
  | cons a l =>
    rw [List.filterMap_map]
    simpa [Function.comp_def] using filterMap_some_pair e (a :: l)

theorem unmatchedCount_nil (regions : List Region) :
    unmatchedCount [] regions = 0 := rfl

theorem unmatchedCount_cons (e : Event) (es : List Event) (regions : List Region) :
    unmatchedCount (e :: es) regions =
      (if regionsContaining e regions = [] then 1 else 0) + unmatchedCount es regions := by
  unfold unmatchedCount
  rw [sjoinRows_cons, List.filter_append, List.length_append]
  congr 1
  unfold sjoinRowsFor
  cases h : regionsContaining e regions with
  | nil => simp
  | cons a l => simp [List.filter_map, Function.comp_def]

theorem mem_spatial_join {er : Event × Region} {events : List Event}
    {regions : List Region} (h : er ∈ spatial_join_with_census events regions) :
    er.1 ∈ events ∧ er.2 ∈ regions ∧ within er.1.loc er.2.boundary = true := by
  induction events with
  | nil => simp [spatial_join_nil] at h
  | cons e es ih =>
    rw [spatial_join_cons, List.mem_append] at h
    rcases h with h | h
    · rcases List.mem_map.mp h with ⟨r, hr, rfl⟩
      rcases List.mem_filter.mp hr with ⟨hmem, hw⟩
      exact ⟨List.mem_cons_self _ _, hmem, hw⟩
    · rcases ih h with ⟨h1, h2, h3⟩
      exact ⟨List.mem_cons_of_mem _ h1, h2, h3⟩

/-! ## Counting lemmas for the aggregation -/

theorem geoidCount_nil (g : String) : geoidCount [] g = 0 := rfl

theorem geoidCount_cons (x : Event × Region) (xs : List (Event × Region)) (g : String) :
    geoidCount (x :: xs) g = (if x.2.geoid == g then 1 else 0) + geoidCount xs g := by
  unfold geoidCount
  rw [List.filter_cons]
  split
  · simp [Nat.add_comm]
  · simp

theorem sum_map_add_nat {α : Type} (l : List α) (f g : α → ℕ) :
    (l.map (fun a => f a + g a)).sum = (l.map f).sum + (l.map g).sum := by
  induction l with
  | nil => rfl
  | cons a t ih => simp [ih]; omega

theorem sum_map_indicator {α : Type} (l : List α) (p : α → Bool) :
    (l.map (fun a => if p a then (1 : ℕ) else 0)).sum = l.countP p := by
  induction l with
  | nil => rfl
  | cons a t ih => simp [List.countP_cons, ih, Nat.add_comm]

theorem countP_beq_of_nodup {α : Type} [DecidableEq α] (gs : List α) (g : α)
    (nd : gs.Nodup) (hg : g ∈ gs) : gs.countP (fun b => g == b) = 1 := by
  induction gs with
  | nil => cases hg
  | cons a t ih =>
    rw [List.countP_cons]
    rcases List.mem_cons.mp hg with rfl | hmem
    · have h0 : t.countP (fun b => g == b) = 0 := by
        apply List.countP_eq_zero.mpr
        intro b hb hgb
        have hb' : g = b := by simpa using hgb
        subst hb'
        exact (List.nodup_cons.mp nd).1 hb
      simp [h0]
    · have hne : a ≠ g := by
        intro h
        exact (List.nodup_cons.mp nd).1 (h ▸ hmem)
      rw [ih (List.nodup_cons.mp nd).2 hmem]
      simp [Ne.symm hne]

theorem sum_geoidCount (joined : List (Event × Region)) (regions : List Region)
    (h1 : (regions.map Region.geoid).Nodup)
    (hmem : ∀ er ∈ joined, er.2.geoid ∈ regions.map Region.geoid) :
    (regions.map (fun r => geoidCount joined r.geoid)).sum = joined.length := by
  induction joined with
  | nil =>
    have : ∀ rs : List Region, (rs.map (fun r => geoidCount [] r.geoid)).sum = 0 := by
      intro rs
      induction rs with
      | nil => rfl
      | cons a t ih => simp [geoidCount_nil, ih]
    simpa using this regions
  | cons x xs ih =>
    have hrw : (regions.map (fun r => geoidCount (x :: xs) r.geoid)).sum =
        (regions.map (fun r => (if x.2.geoid == r.geoid then 1 else 0) + geoidCount xs r.geoid)).sum := by
      congr 1
      apply List.map_congr_left
      intro r _
      exact geoidCount_cons x xs r.geoid
    rw [hrw, sum_map_add_nat]
    have hind : (regions.map (fun r => if x.2.geoid == r.geoid then (1 : ℕ) else 0)).sum = 1 := by
      rw [sum_map_indicator]
      have : regions.countP (fun r => x.2.geoid == r.geoid) =
          (regions.map Region.geoid).countP (fun b => x.2.geoid == b) := by
        rw [List.countP_map]
        rfl
      rw [this]
      exact countP_beq_of_nodup _ _ h1 (hmem x (List.mem_cons_self _ _))
    rw [hind, ih (fun er her => hmem er (List.mem_cons_of_mem _ her))]
    simp [Nat.add_comm]

theorem totalComplaintCount_joinAggregate (events : List Event) (regions : List Region) :
    totalComplaintCount (joinAggregate events regions) =
      (regions.map (fun r => geoidCount (spatial_join_with_census events regions) r.geoid)).sum := by
  simp [totalComplaintCount, joinAggregate, aggregate_by_census_tract,
    List.map_map, Function.comp_def]

theorem join_length_add_unmatched (events : List Event) (regions : List Region)
    (h2 : ∀ e ∈ events, (regionsContaining e regions).length ≤ 1) :
    (spatial_join_with_census events regions).length + unmatchedCount events regions =
      events.length := by
  induction events with
  | nil => rfl
  | cons e es ih =>
    rw [spatial_join_cons, unmatchedCount_cons, List.length_append, List.length_map]
    have hle : (regionsContaining e regions).length ≤ 1 := h2 e (List.mem_cons_self _ _)
    have hes : ∀ e' ∈ es, (regionsContaining e' regions).length ≤ 1 :=
      fun e' he' => h2 e' (List.mem_cons_of_mem _ he')
    have hone : (regionsContaining e regions).length +
        (if regionsContaining e regions = [] then 1 else 0) = 1 := by
      cases hrc : regionsContaining e regions with
      | nil => simp
      | cons a t =>
        cases t with
        | nil => simp
        | cons b t2 =>
          rw [hrc] at hle
          simp at hle
    have := ih hes
    simp only [List.length_cons]
    omega

theorem geoidCount_eq_countP (l : List (Event × Region)) (g : String) :
    geoidCount l g = l.countP (fun er => er.2.geoid == g) :=
  (List.countP_eq_length_filter _ _).symm

theorem countP_geoid_and (regions : List Region) (r : Region) (p : Region → Bool)
    (h1 : (regions.map Region.geoid).Nodup) (hr : r ∈ regions) :
    regions.countP (fun q => (q.geoid == r.geoid) && p q) = if p r then 1 else 0 := by
  induction regions with
  | nil => cases hr
  | cons a t ih =>
    have nd := List.nodup_cons.mp (show (a.geoid :: t.map Region.geoid).Nodup from h1)
    rw [List.countP_cons]
    rcases List.mem_cons.mp hr with rfl | hmem
    · have h0 : t.countP (fun q => (q.geoid == r.geoid) && p q) = 0 := by
        apply List.countP_eq_zero.mpr
        intro q hq hcond
        have : q.geoid = r.geoid := by
          have := Bool.and_elim_left hcond
          simpa using this
        exact nd.1 (this ▸ List.mem_map_of_mem Region.geoid hq)
      rw [h0]
      simp
    · have hne : a.geoid ≠ r.geoid := by
        intro h
        exact nd.1 (h ▸ List.mem_map_of_mem Region.geoid hmem)
      rw [ih nd.2 hmem]
      simp [hne]

theorem geoidCount_pipeline (events : List Event) (regions : List Region) (r : Region)
    (h1 : (regions.map Region.geoid).Nodup) (hr : r ∈ regions) :
    geoidCount (spatial_join_with_census events regions) r.geoid =
      events.countP (fun e => within e.loc r.boundary) := by
  induction events with
  | nil => rfl
  | cons e es ih =>
    rw [spatial_join_cons, geoidCount_eq_countP, List.countP_append, List.countP_map,
      ← geoidCount_eq_countP, ih, List.countP_cons]
    have hblock : (regionsContaining e regions).countP
        ((fun er : Event × Region => er.2.geoid == r.geoid) ∘ fun q => (e, q)) =
        (if within e.loc r.boundary then 1 else 0) := by
      unfold regionsContaining
      rw [show ((fun er : Event × Region => er.2.geoid == r.geoid) ∘ fun q => (e, q)) =
        (fun q : Region => q.geoid == r.geoid) from rfl]
      rw [List.countP_filter]
      exact countP_geoid_and regions r _ h1 hr
    rw [hblock]
    omega

/-- The GEOIDs of the regions to which the join assigns a given event: the
GEOID column of the joined rows whose complaint is the given one.  Each such
row adds one to that region's complaint_count in the aggregation. -/
def assignedRegions (e : Event) (events : List Event) (regions : List Region) : List String :=
  ((spatial_join_with_census events regions).filter (fun er => er.1.id == e.id)).map
    (fun er => er.2.geoid)

theorem assignedRegions_eq (e : Event) (events : List Event) (regions : List Region)
    (h : (events.map Event.id).Nodup) (he : e ∈ events) :
    assignedRegions e events regions = (regionsContaining e regions).map Region.geoid := by
  induction events with
  | nil => cases he
  | cons a es ih =>
    have nd := List.nodup_cons.mp (show (a.id :: es.map Event.id).Nodup from h)
    unfold assignedRegions
    rw [spatial_join_cons, List.filter_append, List.map_append]
    rcases List.mem_cons.mp he with rfl | hmem
    · have hrest : (spatial_join_with_census es regions).filter
          (fun er => er.1.id == e.id) = [] := by
        apply List.filter_eq_nil_iff.mpr
        intro er her hcond
        have h1 : er.1 ∈ es := (mem_spatial_join her).1
        have h2 : er.1.id = e.id := by simpa using hcond
        exact nd.1 (h2 ▸ List.mem_map_of_mem Event.id h1)
      rw [hrest, List.filter_map]
      have hall : ((fun er : Event × Region => er.1.id == e.id) ∘ fun r => (e, r)) =
          fun _ : Region => true := by
        funext r
        simp
      rw [hall, List.filter_true, List.map_map]
      simp [Function.comp_def]
    · have hne : a.id ≠ e.id := by
        intro hid
        exact nd.1 (hid ▸ List.mem_map_of_mem Event.id hmem)
      have hnone : ((fun er : Event × Region => er.1.id == e.id) ∘ fun r => (a, r)) =
          fun _ : Region => false := by
        funext r
        simpa using hne
      rw [List.filter_map, hnone, List.filter_false]
      simpa using ih nd.2 hmem

/-! ## Model of create_sample_311_data and the complaints branch of
download_and_prepare_data -/

def n_complaints : ℕ := 100000

/-- Lengths of the list-valued columns handed to the pd.DataFrame constructor
in create_sample_311_data (src lines 129-143), in source order: Unique Key,
Created Date, Closed Date, Complaint Type, Descriptor, Location Type,
Incident Zip, Incident Address, Status, Borough, Latitude, Longitude.
The scalar 'Agency' column broadcasts and imposes no length constraint. -/
def sample311ColumnLengths : List ℕ :=
  [n_complaints, n_complaints, n_complaints, n_complaints, n_complaints, 3,
   n_complaints, n_complaints, n_complaints, n_complaints, n_complaints, n_complaints]

/-- Models the pandas DataFrame constructor applied to a dict of array
columns: it is accepted iff all arrays share one length, and otherwise
raises ValueError.  The result is the row count. -/
def mkDataFrame : List ℕ → Except String ℕ
  | [] => Except.ok 0
  | n :: rest =>
    if rest.all (fun m => m == n) then Except.ok n
    else Except.error "All arrays must be of the same length"

/-- create_sample_311_data (lines 67-145): every run builds the same dict of
columns and hands it to the DataFrame constructor. -/
def create_sample_311_data : Except String ℕ :=
  mkDataFrame sample311ColumnLengths

/-- The complaints branch of download_and_prepare_data (lines 38-46): load
the cached CSV when nyc_311_2019.csv exists, otherwise build the sample
dataset (and save it).  The cache is modelled as an optional row count. -/
def download_complaints (cache : Option ℕ) : Except String ℕ :=
  match cache with
  | some df => Except.ok df
  | none => create_sample_311_data

/-! ## Model of run_analysis.main -/

/-- The attribute names the data_processing module defines: its imports,
module-level constants and functions (src/scripts/data_processing.py). -/
def data_processing_attrs : List String :=
  ["pd", "np", "gpd", "os", "Point", "Polygon", "random",
   "DATA_DIR", "RAW_DATA_DIR", "PROCESSED_DATA_DIR",
   "ensure_dirs", "download_and_prepare_data", "create_sample_311_data",
   "create_sample_census_data", "filter_flood_complaints",
   "spatial_join_with_census", "aggregate_by_census_tract"]

/-- Python attribute lookup on the data_processing module: AttributeError
when the name is not defined there. -/
def getattr_data_processing (name : String) : Except String Unit :=
  if name ∈ data_processing_attrs then Except.ok ()
  else Except.error ("AttributeError: module data_processing has no attribute " ++ name)

/-- Step 1 of run_analysis.main (src/scripts/run_analysis.py lines 82-100):
without --skip-processing it calls data_processing.process_data(); with
--skip-processing it calls data_processing.download_nyc_311_data(...) and
then data_processing.download_census_tracts(). -/
def processing_step (skip_processing : Bool) : Except String Unit :=
  if skip_processing then do
    let _ ← getattr_data_processing "download_nyc_311_data"
    let _ ← getattr_data_processing "download_census_tracts"
    Except.ok ()
  else do
    let _ ← getattr_data_processing "process_data"
    Except.ok ()

/-- Observable outcome of one invocation of run_analysis.main. -/
structure RunOutcome where
  processing_error : Option String
  ran_visualization : Bool
  ran_analysis : Bool
deriving DecidableEq

/-- run_analysis.main (lines 62-120): an exception in the data-processing
step is caught, logged and followed by `return`, so steps 2 and 3 never run;
on success steps 2 and 3 run unless their skip flags are set. -/
def run_analysis_main (skip_processing skip_visualization skip_analysis : Bool) :
    RunOutcome :=
  match processing_step skip_processing with
  | Except.error e =>
    { processing_error := some e, ran_visualization := false, ran_analysis := false }
  | Except.ok _ =>
    { processing_error := none, ran_visualization := !skip_visualization,
      ran_analysis := !skip_analysis }

/-! ## Effectful wrappers for the idempotence claim -/

/-- The mutable state a run can see: the state of the random module and the
list of files written so far. -/
structure World where
  rngState : ℕ
  writes : List String
deriving DecidableEq

/-- spatial_join_with_census with its side effect: it writes one CSV
(lines 288-289) and consults neither the random module nor any prior file. -/
def spatial_join_run (events : List Event) (regions : List Region) (w : World) :
    List (Event × Region) × World :=
  (spatial_join_with_census events regions,
   { w with writes := w.writes ++ ["processed/flood_complaints_with_census_2019.csv"] })

/-- aggregate_by_census_tract with its side effect: it writes one GeoJSON
(lines 319-320) and consults neither the random module nor any prior file. -/
def aggregate_run (joined : List (Event × Region)) (census : List Region) (w : World) :
    List AggregatedRegion × World :=
  (aggregate_by_census_tract joined census,
   { w with writes := w.writes ++ ["processed/aggregated_flood_complaints_2019.geojson"] })

/-- One run of the join-and-aggregate step, threading the world state. -/
def joinAggregate_run (events : List Event) (regions : List Region) (w : World) :
    List AggregatedRegion × World :=
  aggregate_run (spatial_join_run events regions w).1 regions (spatial_join_run events regions w).2

/-! ## Concrete inputs used by counterexamples and witnesses -/

/-- The unit square ring, as create_sample_census_data builds rectangle
rings (first vertex repeated at the end). -/
def unitRing : List Pt := [⟨0, 0⟩, ⟨1, 0⟩, ⟨1, 1⟩, ⟨0, 1⟩, ⟨0, 0⟩]

/-- Two regions with identical unit-square boundaries (overlapping
polygons) and distinct GEOIDs. -/
def overlapA : Region := { geoid := "A", population := 1000, boundary := unitRing }

def overlapB : Region := { geoid := "B", population := 1000, boundary := unitRing }

/-- An event at (0.5, 0.5), inside the unit square. -/
def evHalf : Event := ⟨7, ⟨1/2, 1/2⟩⟩

/-- A region with population 0. -/
def zeroPopRegion : Region := { geoid := "Z", population := 0, boundary := unitRing }

/-- An event at (0.2, 0.2), inside the unit square. -/
def evFifth : Event := ⟨4, ⟨1/5, 1/5⟩⟩

/-! ## Claim theorems -/

/-- Claim C1 counterexample: with two Regions whose unit-square boundaries
overlap (distinct GEOIDs) and one Event inside both, the left spatial join
emits one row per containing Region, so the aggregated complaint_counts sum
to 2 while there is 1 input Event and 0 unmatched Events: the conservation
law fails as stated. -/
theorem conservation_law_cex :
    ¬ (totalComplaintCount (joinAggregate [evHalf] [overlapA, overlapB]) +
        unmatchedCount [evHalf] [overlapA, overlapB] =
          ([evHalf] : List Event).length) := by
  norm_num [totalComplaintCount, joinAggregate, aggregate_by_census_tract,
    spatial_join_with_census, sjoinRows, sjoinRowsFor, regionsContaining,
    geoidCount, unmatchedCount, within, crossingCount, edgeCrosses,
    overlapA, overlapB, evHalf, unitRing, List.filter_cons, List.filterMap_cons]
  decide

/-- Claim C1 (amended): for Regions with pairwise-distinct GEOIDs (the data
model's unique key) such that every Event's point lies within at most one
Region's boundary, the sum of complaint_count over the aggregated output of
spatial_join_with_census followed by aggregate_by_census_tract, plus the
number of unmatched Events, equals the total number of input Events. -/
theorem conservation_law (events : List Event) (regions : List Region)
    (h1 : (regions.map Region.geoid).Nodup)
    (h2 : ∀ e ∈ events, (regionsContaining e regions).length ≤ 1) :
    totalComplaintCount (joinAggregate events regions) + unmatchedCount events regions =
      events.length := by
  rw [totalComplaintCount_joinAggregate,
    sum_geoidCount _ _ h1
      (fun er her => List.mem_map_of_mem Region.geoid (mem_spatial_join her).2.1)]
  exact join_length_add_unmatched events regions h2

/-- Witness for C1: the spec's unit-square scenario satisfies both
hypotheses, and 2 counted plus 1 unmatched equals 3 events. -/
theorem conservation_law_witness :
    ((([scenarioRegion].map Region.geoid).Nodup) ∧
      (∀ e ∈ scenarioEvents, (regionsContaining e [scenarioRegion]).length ≤ 1)) ∧
    totalComplaintCount (joinAggregate scenarioEvents [scenarioRegion]) +
      unmatchedCount scenarioEvents [scenarioRegion] = scenarioEvents.length := by
  have hnd : ([scenarioRegion].map Region.geoid).Nodup := by simp
  have hle : ∀ e ∈ scenarioEvents, (regionsContaining e [scenarioRegion]).length ≤ 1 := by
    norm_num [scenarioEvents, scenarioRegion, regionsContaining, within,
      crossingCount, edgeCrosses, List.filter_cons]
  exact ⟨⟨hnd, hle⟩, conservation_law scenarioEvents [scenarioRegion] hnd hle⟩

/-- Claim C2 counterexample: an Event whose point lies inside two
overlapping Regions is assigned to both by spatial_join_with_census (one
joined row per containing Region), so it is counted in two Regions'
complaint_counts, not at most one. -/
theorem exclusivity_cex :
    ¬ ((assignedRegions evHalf [evHalf] [overlapA, overlapB]).length ≤ 1) := by
  norm_num [assignedRegions, spatial_join_with_census, sjoinRows, sjoinRowsFor,
    regionsContaining, within, crossingCount, edgeCrosses, overlapA, overlapB,
    evHalf, unitRing, List.filter_cons, List.filterMap_cons]

/-- Claim C2 (amended): the joiner does not pick a single Region when
several contain the point: it assigns the Event one joined row per
containing Region, in the census table's order.  An Event is therefore
counted in at most one Region's complaint_count exactly when at most one
Region contains its point (e.g. non-overlapping Regions). -/
theorem exclusivity (events : List Event) (regions : List Region) (e : Event)
    (h1 : (events.map Event.id).Nodup) (he : e ∈ events) :
    assignedRegions e events regions = (regionsContaining e regions).map Region.geoid ∧
    ((regionsContaining e regions).length ≤ 1 →
      (assignedRegions e events regions).length ≤ 1) := by
  have hchar := assignedRegions_eq e events regions h1 he
  refine ⟨hchar, fun hle => ?_⟩
  rw [hchar, List.length_map]
  exact hle

/-- Witness for C2: a single event inside the single unit-square region is
assigned exactly that region. -/
theorem exclusivity_witness :
    (([evFifth].map Event.id).Nodup ∧ evFifth ∈ [evFifth]) ∧
    (assignedRegions evFifth [evFifth] [scenarioRegion] =
        (regionsContaining evFifth [scenarioRegion]).map Region.geoid ∧
      ((regionsContaining evFifth [scenarioRegion]).length ≤ 1 →
        (assignedRegions evFifth [evFifth] [scenarioRegion]).length ≤ 1)) := by
  have h1 : ([evFifth].map Event.id).Nodup := by simp
  have he : evFifth ∈ [evFifth] := List.mem_cons_self _ _
  exact ⟨⟨h1, he⟩, exclusivity [evFifth] [scenarioRegion] evFifth h1 he⟩

/-- Claim C3: every Region appears in the output of
aggregate_by_census_tract, in input order, and — for Regions carrying the
data model's unique GEOIDs — a Region containing no Event's point has
complaint_count 0.  Regions are never dropped from the aggregated output. -/
theorem regions_never_dropped (events : List Event) (regions : List Region)
    (h1 : (regions.map Region.geoid).Nodup) :
    (joinAggregate events regions).map AggregatedRegion.region = regions ∧
    ∀ ar ∈ joinAggregate events regions,
      (∀ e ∈ events, within e.loc ar.region.boundary = false) →
        ar.complaint_count = 0 := by
  constructor
  · simp [joinAggregate, aggregate_by_census_tract, List.map_map, Function.comp_def]
  · intro ar har hnone
    have har' : ar ∈ regions.map (fun r =>
        ({ region := r,
           complaint_count := geoidCount (spatial_join_with_census events regions) r.geoid,
           complaint_rate := computeRate
             (geoidCount (spatial_join_with_census events regions) r.geoid)
             r.population } : AggregatedRegion)) := har
    rcases List.mem_map.mp har' with ⟨r, hr, rfl⟩
    show geoidCount (spatial_join_with_census events regions) r.geoid = 0
    rw [geoidCount_pipeline events regions r h1 hr]
    apply List.countP_eq_zero.mpr
    intro e hee hcond
    have hfalse := hnone e hee
    simp only at hcond hfalse
    rw [hfalse] at hcond
    cases hcond

/-- Witness for C3: the unit-square scenario, whose single region appears in
the output. -/
theorem regions_never_dropped_witness :
    (([scenarioRegion].map Region.geoid).Nodup) ∧
    ((joinAggregate scenarioEvents [scenarioRegion]).map AggregatedRegion.region =
        [scenarioRegion] ∧
      ∀ ar ∈ joinAggregate scenarioEvents [scenarioRegion],
        (∀ e ∈ scenarioEvents, within e.loc ar.region.boundary = false) →
          ar.complaint_count = 0) := by
  have h1 : ([scenarioRegion].map Region.geoid).Nodup := by simp
  exact ⟨h1, regions_never_dropped scenarioEvents [scenarioRegion] h1⟩

/-- Claim C4 counterexample: a Region with population 0 and one matched
Event gets complaint_count 1 but complaint_rate +inf (the float value of
1.0/0.0), which is not the claimed not-a-number/null sentinel. -/
theorem rate_zero_population_cex :
    (joinAggregate [evFifth] [zeroPopRegion]).map
        (fun ar => (ar.complaint_count, ar.complaint_rate)) = [(1, Rate.inf)] ∧
      Rate.inf ≠ Rate.nan := by
  constructor
  · norm_num [joinAggregate, aggregate_by_census_tract, spatial_join_with_census,
      sjoinRows, sjoinRowsFor, regionsContaining, geoidCount, computeRate,
      within, crossingCount, edgeCrosses, zeroPopRegion, evFifth, unitRing,
      List.filter_cons, List.filterMap_cons]
  · decide

/-- Claim C4 (amended): for population 0 the complaint_rate is a defined
IEEE special value, never a runtime crash and never 0: NaN when the count is
0 and +inf when the count is positive; in particular a Region with
population 0 and one matched Event gets complaint_count 1 and
complaint_rate +inf (not NaN). -/
theorem rate_zero_population (count : ℕ) :
    computeRate count 0 = (if count = 0 then Rate.nan else Rate.inf) ∧
    (∀ q : ℚ, computeRate count 0 ≠ Rate.val q) ∧
    joinAggregate [evFifth] [zeroPopRegion] =
      [{ region := zeroPopRegion, complaint_count := 1, complaint_rate := Rate.inf }] := by
  refine ⟨by simp [computeRate], ?_, ?_⟩
  · intro q
    cases count with
    | zero => simp [computeRate]
    | succ n => simp [computeRate]
  · norm_num [joinAggregate, aggregate_by_census_tract, spatial_join_with_census,
      sjoinRows, sjoinRowsFor, regionsContaining, geoidCount, computeRate,
      within, crossingCount, edgeCrosses, zeroPopRegion, evFifth, unitRing,
      List.filter_cons, List.filterMap_cons]

/-- Claim C5: create_sample_311_data always raises (its 'Location Type'
column is a 3-element list while every other list column has 100000
entries, so the DataFrame constructor rejects the dict), and hence
download_and_prepare_data returns complaint data exactly when the cached
nyc_311_2019.csv exists. -/
theorem create_sample_311_data_raises :
    create_sample_311_data = Except.error "All arrays must be of the same length" ∧
    ∀ cache : Option ℕ, (download_complaints cache).isOk = cache.isSome := by
  constructor
  · rfl
  · intro cache
    cases cache <;>
      simp [download_complaints, create_sample_311_data, mkDataFrame,
        sample311ColumnLengths, n_complaints, Except.isOk, Except.toBool]

/-- Claim C6: every invocation of run_analysis.main hits an AttributeError
in the data-processing step (process_data without --skip-processing,
download_nyc_311_data with it), catches it, and returns without running the
visualization or analysis steps. -/
theorem run_analysis_main_attribute_error (sp sv sa : Bool) :
    (run_analysis_main sp sv sa).processing_error =
      some (if sp then
          "AttributeError: module data_processing has no attribute download_nyc_311_data"
        else
          "AttributeError: module data_processing has no attribute process_data") ∧
    (run_analysis_main sp sv sa).ran_visualization = false ∧
    (run_analysis_main sp sv sa).ran_analysis = false := by
  cases sp <;> cases sv <;> cases sa <;> exact ⟨rfl, rfl, rfl⟩

/-- Claim C8: on the spec's concrete scenario — one Region with population
2000 and unit-square boundary, events at (0.2,0.2), (0.5,0.5), (2,2) — the
join-and-aggregate step yields complaint_count 2 and complaint_rate 1, with
exactly one unmatched event. -/
theorem concrete_scenario :
    joinAggregate scenarioEvents [scenarioRegion] =
      [{ region := scenarioRegion, complaint_count := 2, complaint_rate := Rate.val 1 }] ∧
    unmatchedCount scenarioEvents [scenarioRegion] = 1 := by
  constructor
  · norm_num [joinAggregate, aggregate_by_census_tract, spatial_join_with_census,
      sjoinRows, sjoinRowsFor, regionsContaining, geoidCount, computeRate,
      within, crossingCount, edgeCrosses, scenarioRegion, scenarioEvents,
      List.filter_cons, List.filterMap_cons]
  · norm_num [unmatchedCount, sjoinRows, sjoinRowsFor, regionsContaining,
      within, crossingCount, edgeCrosses, scenarioRegion, scenarioEvents,
      List.filter_cons]

/-- Claim C9: running the join-and-aggregate step twice on identical Event
and Region inputs yields identical AggregatedRegion output — the step is a
pure function of its inputs, unaffected by the world state (random-module
state, files written by the first run). -/
theorem join_aggregate_deterministic (events : List Event) (regions : List Region)
    (w : World) :
    (joinAggregate_run events regions ((joinAggregate_run events regions w).2)).1 =
      (joinAggregate_run events regions w).1 ∧
    (joinAggregate_run events regions w).1 = joinAggregate events regions :=
  ⟨rfl, rfl⟩

/-- Claim C10: for a fixed population greater than 0, the complaint_rate
computed by aggregate_by_census_tract (via computeRate) is monotonically
non-decreasing in complaint_count. -/
theorem rate_monotone (c₁ c₂ p : ℕ) (hp : 0 < p) (hc : c₁ ≤ c₂) :
    ∃ q₁ q₂ : ℚ, computeRate c₁ p = Rate.val q₁ ∧ computeRate c₂ p = Rate.val q₂ ∧
      q₁ ≤ q₂ := by
  have hp0 : p ≠ 0 := Nat.pos_iff_ne_zero.mp hp
  refine ⟨(c₁ : ℚ) / p * 1000, (c₂ : ℚ) / p * 1000, by simp [computeRate, hp0],
    by simp [computeRate, hp0], ?_⟩
  have hpq : (0 : ℚ) < p := by exact_mod_cast hp
  have hcq : (c₁ : ℚ) ≤ c₂ := by exact_mod_cast hc
  gcongr

/-- Witness for C10: counts 1 ≤ 2 with population 2000 give rates 1/2 ≤ 1. -/
theorem rate_monotone_witness :
    (0 < 2000 ∧ 1 ≤ 2) ∧
    ∃ q₁ q₂ : ℚ, computeRate 1 2000 = Rate.val q₁ ∧ computeRate 2 2000 = Rate.val q₂ ∧
      q₁ ≤ q₂ :=
  ⟨⟨by norm_num, by norm_num⟩, rate_monotone 1 2 2000 (by norm_num) (by norm_num)⟩

end FloodSpec
